import Mathlib

/-!
Shallow embedding of the instanced-cube GPU renderer (`src/model_gpu.rs`) and
verification of the specified properties.

Modelling conventions:
- `f32` scalar values are never inspected arithmetically by the renderer (they
  are only copied into buffers), so they are modelled as opaque tokens of type
  `F32 := Nat` (think: the 32-bit pattern of the float).
- Machine integers are modelled as `Nat` with an explicit `% 2 ^ 32` wherever
  the Rust code performs an `as u32` cast.
- Device resources (buffers, shader modules, pipelines) are modelled as pure
  values: `create_buffer_mapped(len, usage).fill_from_slice(data)` yields the
  value `{ data, usage }`, and `create_render_pipeline` records its descriptor.
- A `wgpu::RenderPass` is modelled as the list of commands recorded on it; each
  recording method appends one command.  A `wgpu::CommandEncoder` is likewise
  the list of buffer-to-buffer copies recorded on it (the only encoder method
  the source ever mentions, in a disabled code path).
-/

/-- Opaque token standing for one `f32` value (its bit pattern); the renderer
only ever copies these, never computes with them. -/
abbrev F32 := Nat

/-- The Rust `as u32` cast: truncation modulo `2 ^ 32`. -/
def u32Cast (n : Nat) : Nat := n % 2 ^ 32

namespace model

/-- Modelled from the spec: `model::Vertex` (the file `model.rs` is not under
`src/`).  The spec fixes it as `{position: 4 floats, texcoord: 2 floats}`. -/
structure Vertex where
  pos : F32 × F32 × F32 × F32
  tex_coord : F32 × F32
deriving DecidableEq

/-- Modelled from the spec: `std::mem::size_of::<model::Vertex>()`; four
4-byte floats plus two 4-byte floats, 24 bytes (the spec places the texcoord
attribute at byte offset 16 and sets the per-vertex stride to the Vertex
size). -/
def Vertex.size : Nat := 24

/-- Modelled from the spec: `model::TriangleList`, an ordered vertex list plus
an ordered 32-bit index list interpreted as triangles. -/
structure TriangleList where
  vertex_data : List Vertex
  index_data : List Nat
deriving DecidableEq

/-- Modelled from the spec: `model::create_cube()`, the Mesh Provider.  The
spec fixes it as a zero-argument, deterministic operation returning a fixed
unit cube of 24 vertices and 36 indices, every index below 24.  The individual
scalar tokens are irrelevant to every claim; the standard 4-vertices-per-face
cube layout is used. -/
def create_cube : TriangleList :=
  { vertex_data :=
      (List.range 24).map (fun i =>
        { pos := (i, i + 24, i + 48, 1), tex_coord := (i % 2, i / 2 % 2) })
    index_data :=
      (List.range 6).flatMap (fun f =>
        [4 * f, 4 * f + 1, 4 * f + 2, 4 * f + 2, 4 * f + 3, 4 * f]) }

end model

namespace wgpu

/-- Buffer usage flags; only the flags the source mentions are modelled.
`a | b` on usages is modelled by `BufferUsage.union`. -/
structure BufferUsage where
  vertex : Bool
  index : Bool
  copy_src : Bool
  copy_dst : Bool
deriving DecidableEq

def BufferUsage.union (a b : BufferUsage) : BufferUsage :=
  { vertex := a.vertex || b.vertex
    index := a.index || b.index
    copy_src := a.copy_src || b.copy_src
    copy_dst := a.copy_dst || b.copy_dst }

def BufferUsage.VERTEX : BufferUsage :=
  { vertex := true, index := false, copy_src := false, copy_dst := false }

def BufferUsage.INDEX : BufferUsage :=
  { vertex := false, index := true, copy_src := false, copy_dst := false }

def BufferUsage.COPY_DST : BufferUsage :=
  { vertex := false, index := false, copy_src := false, copy_dst := true }

/-- The typed payload written into a device buffer by `fill_from_slice`. -/
inductive BufferData where
  | vertices (vs : List model.Vertex)
  | indices (is : List Nat)
  | floats (fs : List F32)
deriving DecidableEq

/-- A device-resident buffer: its filled contents and its usage flags. -/
structure Buffer where
  data : BufferData
  usage : BufferUsage
deriving DecidableEq

/-- Opaque device handle (resource creation is pure in this model). -/
abbrev Device := Nat

/-- Intermediate value of `device.create_buffer_mapped(len, usage)`. -/
structure CreateBufferMapped where
  len : Nat
  usage : BufferUsage
deriving DecidableEq

def Device.create_buffer_mapped (_dev : Device) (len : Nat)
    (usage : BufferUsage) : CreateBufferMapped :=
  { len := len, usage := usage }

def CreateBufferMapped.fill_from_slice (b : CreateBufferMapped)
    (data : BufferData) : Buffer :=
  { data := data, usage := b.usage }

/-- A recorded buffer-to-buffer copy; the only command the source could record
on a `CommandEncoder` (and that code path is commented out). -/
structure BufferToBufferCopy where
  src : Buffer
  src_offset : Nat
  dst : Buffer
  dst_offset : Nat
  size : Nat
deriving DecidableEq

/-- A command encoder, modelled as the list of commands recorded on it. -/
abbrev CommandEncoder := List BufferToBufferCopy

/-- Opaque bind-group handle (the renderer only forwards it). -/
abbrev BindGroup := Nat

/-- Opaque bind-group-layout handle. -/
abbrev BindGroupLayout := Nat

inductive TextureFormat where
  | Rgba8Unorm
  | Bgra8Unorm
  | Bgra8UnormSrgb
  | Depth32Float
  | Other (id : Nat)
deriving DecidableEq

inductive ShaderStage where
  | Vertex
  | Fragment
  | Compute
deriving DecidableEq

/-- Device-loadable shader bytecode, modelled as the compiler's input pair. -/
abbrev ShaderBytes := String × ShaderStage

/-- A shader module; `create_shader_module` records the bytecode. -/
abbrev ShaderModule := ShaderBytes

def Device.create_shader_module (_dev : Device) (bytes : ShaderBytes) :
    ShaderModule := bytes

structure PipelineLayoutDescriptor where
  bind_group_layouts : List BindGroupLayout
deriving DecidableEq

abbrev PipelineLayout := PipelineLayoutDescriptor

def Device.create_pipeline_layout (_dev : Device)
    (desc : PipelineLayoutDescriptor) : PipelineLayout := desc

structure ProgrammableStageDescriptor where
  module : ShaderModule
  entry_point : String
deriving DecidableEq

inductive FrontFace where
  | Ccw
  | Cw
deriving DecidableEq

inductive CullMode where
  | NoCulling
  | Front
  | Back
deriving DecidableEq

structure RasterizationStateDescriptor where
  front_face : FrontFace
  cull_mode : CullMode
  depth_bias : Int
  depth_bias_slope_scale : F32
  depth_bias_clamp : F32
deriving DecidableEq

inductive PrimitiveTopology where
  | PointList
  | LineList
  | LineStrip
  | TriangleList
  | TriangleStrip
deriving DecidableEq

inductive BlendFactor where
  | Zero
  | One
  | SrcAlpha
  | OneMinusSrcAlpha
deriving DecidableEq

inductive BlendOperation where
  | Add
  | Subtract
  | Min
  | Max
deriving DecidableEq

structure BlendDescriptor where
  src_factor : BlendFactor
  dst_factor : BlendFactor
  operation : BlendOperation
deriving DecidableEq

/-- `wgpu::BlendDescriptor::REPLACE`: source replaces destination. -/
def BlendDescriptor.REPLACE : BlendDescriptor :=
  { src_factor := .One, dst_factor := .Zero, operation := .Add }

/-- Color write mask, a 4-bit flag set; `ALL` enables all four channels. -/
abbrev ColorWrite := Nat

def ColorWrite.ALL : ColorWrite := 15

structure ColorStateDescriptor where
  format : TextureFormat
  color_blend : BlendDescriptor
  alpha_blend : BlendDescriptor
  write_mask : ColorWrite
deriving DecidableEq

inductive CompareFunction where
  | Never
  | Less
  | Equal
  | LessEqual
  | Greater
  | NotEqual
  | GreaterEqual
  | Always
deriving DecidableEq

inductive StencilOperation where
  | Keep
  | Zero
  | Replace
  | Invert
deriving DecidableEq

structure StencilStateFaceDescriptor where
  compare : CompareFunction
  fail_op : StencilOperation
  depth_fail_op : StencilOperation
  pass_op : StencilOperation
deriving DecidableEq

/-- `wgpu::StencilStateFaceDescriptor::IGNORE`: stencil test always passes and
never modifies the stencil buffer. -/
def StencilStateFaceDescriptor.IGNORE : StencilStateFaceDescriptor :=
  { compare := .Always, fail_op := .Keep, depth_fail_op := .Keep
    pass_op := .Keep }

structure DepthStencilStateDescriptor where
  format : TextureFormat
  depth_write_enabled : Bool
  depth_compare : CompareFunction
  stencil_front : StencilStateFaceDescriptor
  stencil_back : StencilStateFaceDescriptor
  stencil_read_mask : Nat
  stencil_write_mask : Nat
deriving DecidableEq

inductive IndexFormat where
  | Uint16
  | Uint32
deriving DecidableEq

inductive VertexFormat where
  | Float
  | Float2
  | Float3
  | Float4
  | Uint
deriving DecidableEq

inductive InputStepMode where
  | Vertex
  | Instance
deriving DecidableEq

structure VertexAttributeDescriptor where
  format : VertexFormat
  offset : Nat
  shader_location : Nat
deriving DecidableEq

structure VertexBufferDescriptor where
  stride : Nat
  step_mode : InputStepMode
  attributes : List VertexAttributeDescriptor
deriving DecidableEq

structure RenderPipelineDescriptor where
  layout : PipelineLayout
  vertex_stage : ProgrammableStageDescriptor
  fragment_stage : Option ProgrammableStageDescriptor
  rasterization_state : Option RasterizationStateDescriptor
  primitive_topology : PrimitiveTopology
  color_states : List ColorStateDescriptor
  depth_stencil_state : Option DepthStencilStateDescriptor
  index_format : IndexFormat
  vertex_buffers : List VertexBufferDescriptor
  sample_count : Nat
  sample_mask : Nat
  alpha_to_coverage_enabled : Bool
deriving DecidableEq

/-- A compiled render pipeline, modelled by its full descriptor. -/
abbrev RenderPipeline := RenderPipelineDescriptor

def Device.create_render_pipeline (_dev : Device)
    (desc : RenderPipelineDescriptor) : RenderPipeline := desc

/-- One command recorded on a render pass. -/
inductive RenderCommand where
  | set_pipeline (p : RenderPipeline)
  | set_bind_group (index : Nat) (group : BindGroup) (offsets : List Nat)
  | set_index_buffer (buf : Buffer) (offset : Nat)
  | set_vertex_buffers (start_slot : Nat) (buffers : List (Buffer × Nat))
  | draw_indexed (indices : Nat × Nat) (base_vertex : Int)
      (instances : Nat × Nat)
deriving DecidableEq

/-- A render pass, modelled as the list of commands recorded on it. -/
abbrev RenderPass := List RenderCommand

def RenderPass.set_pipeline (rp : RenderPass) (p : RenderPipeline) :
    RenderPass := rp ++ [.set_pipeline p]

def RenderPass.set_bind_group (rp : RenderPass) (index : Nat)
    (group : BindGroup) (offsets : List Nat) : RenderPass :=
  rp ++ [.set_bind_group index group offsets]

def RenderPass.set_index_buffer (rp : RenderPass) (buf : Buffer)
    (offset : Nat) : RenderPass := rp ++ [.set_index_buffer buf offset]

def RenderPass.set_vertex_buffers (rp : RenderPass) (start_slot : Nat)
    (buffers : List (Buffer × Nat)) : RenderPass :=
  rp ++ [.set_vertex_buffers start_slot buffers]

def RenderPass.draw_indexed (rp : RenderPass) (indices : Nat × Nat)
    (base_vertex : Int) (instances : Nat × Nat) : RenderPass :=
  rp ++ [.draw_indexed indices base_vertex instances]

end wgpu

namespace glsl_compiler

/-- Modelled from the spec: the Shader Compiler contract
`compile(source_text, stage) -> bytecode` (the file `glsl_compiler.rs` is not
under `src/`); deterministic, consumed only at construction.  The bytecode is
modelled as the input pair itself. -/
def load (source : String) (stage : wgpu.ShaderStage) : wgpu.ShaderBytes :=
  (source, stage)

end glsl_compiler

/-- Modelled from the spec: the built-in vertex-shader source text for an
instanced cube, included at compile time from `shader/cube_instanced.vert`
(not under `src/`); an opaque, fixed string. -/
def cube_instanced_vert_src : String := "shader/cube_instanced.vert"

/-- Modelled from the spec: the built-in fragment-shader source text for an
instanced cube, included at compile time from `shader/cube_instanced.frag`
(not under `src/`); an opaque, fixed string. -/
def cube_instanced_frag_src : String := "shader/cube_instanced.frag"

open wgpu

/-- The renderer state (`struct ModelGpu`). -/
structure ModelGpu where
  vertex_buf : Buffer
  index_buf : Buffer
  index_count : Nat
  instance_buf : Buffer
  instance_count : Nat
  pipeline : RenderPipeline
deriving DecidableEq

namespace ModelGpu

/-- `ModelGpu::new`, translated line by line from `src/model_gpu.rs`.  The
`&mut CommandEncoder` parameter is threaded through and returned so that its
final state is observable; the source records nothing on it. -/
def new (_triangle_list : model.TriangleList) (device : Device)
    (init_encoder : CommandEncoder) (format : TextureFormat)
    (main_bind_group_layout : BindGroupLayout) :
    ModelGpu × CommandEncoder :=
  let vertex_size := model.Vertex.size
  let cube := model.create_cube
  let vertex_data := cube.vertex_data
  let index_data := cube.index_data
  let vertex_buf :=
    (device.create_buffer_mapped vertex_data.length BufferUsage.VERTEX)
      |>.fill_from_slice (.vertices vertex_data)
  let index_buf :=
    (device.create_buffer_mapped index_data.length BufferUsage.INDEX)
      |>.fill_from_slice (.indices index_data)
  let positions : List F32 := []
  let instance_buf :=
    (device.create_buffer_mapped positions.length
        (BufferUsage.VERTEX.union BufferUsage.COPY_DST))
      |>.fill_from_slice (.floats positions)
  let pipeline_layout :=
    device.create_pipeline_layout
      { bind_group_layouts := [main_bind_group_layout] }
  let vs_bytes := glsl_compiler.load cube_instanced_vert_src .Vertex
  let fs_bytes := glsl_compiler.load cube_instanced_frag_src .Fragment
  let vs_module := device.create_shader_module vs_bytes
  let fs_module := device.create_shader_module fs_bytes
  let pipeline := device.create_render_pipeline
    { layout := pipeline_layout
      vertex_stage := { module := vs_module, entry_point := "main" }
      fragment_stage := some { module := fs_module, entry_point := "main" }
      rasterization_state := some
        { front_face := .Ccw
          cull_mode := .Back
          depth_bias := 0
          depth_bias_slope_scale := 0
          depth_bias_clamp := 0 }
      primitive_topology := .TriangleList
      color_states :=
        [{ format := format
           color_blend := BlendDescriptor.REPLACE
           alpha_blend := BlendDescriptor.REPLACE
           write_mask := ColorWrite.ALL }]
      depth_stencil_state := some
        { format := .Depth32Float
          depth_write_enabled := true
          depth_compare := .Less
          stencil_front := StencilStateFaceDescriptor.IGNORE
          stencil_back := StencilStateFaceDescriptor.IGNORE
          stencil_read_mask := 0
          stencil_write_mask := 0 }
      index_format := .Uint32
      vertex_buffers :=
        [{ stride := vertex_size
           step_mode := .Vertex
           attributes :=
             [{ format := .Float4, offset := 0, shader_location := 0 },
              { format := .Float2, offset := 4 * 4, shader_location := 1 }] },
         { stride := 4 * 3
           step_mode := .Instance
           attributes :=
             [{ format := .Float3, offset := 0, shader_location := 2 }] }]
      sample_count := 1
      sample_mask := 2 ^ 32 - 1
      alpha_to_coverage_enabled := false }
  (⟨vertex_buf, index_buf, index_data.length, instance_buf,
     u32Cast positions.length / 3, pipeline⟩,
   init_encoder)

/-- `ModelGpu::render`: records five commands on the given render pass. -/
def render (m : ModelGpu) (rpass : RenderPass) (main_bind_group : BindGroup) :
    RenderPass :=
  let r1 := rpass.set_pipeline m.pipeline
  let r2 := r1.set_bind_group 0 main_bind_group []
  let r3 := r2.set_index_buffer m.index_buf 0
  let r4 := r3.set_vertex_buffers 0 [(m.vertex_buf, 0), (m.instance_buf, 0)]
  r4.draw_indexed (0, u32Cast m.index_count) 0 (0, m.instance_count)

/-- `ModelGpu::update_instance`: fills a brand-new buffer from `positions`,
replaces the instance buffer with it and retallies the instance count.  The
encoder is threaded through unchanged (the staged-copy path is commented out
in the source). -/
def update_instance (m : ModelGpu) (positions : List F32)
    (encoder : CommandEncoder) (device : Device) :
    ModelGpu × CommandEncoder :=
  let temp_buf :=
    (device.create_buffer_mapped positions.length BufferUsage.VERTEX)
      |>.fill_from_slice (.floats positions)
  ({ m with
      instance_buf := temp_buf
      instance_count := u32Cast positions.length / 3 },
   encoder)

end ModelGpu

/-- One externally driven renderer operation, for lifetime statements. -/
inductive RendererOp where
  | upd (positions : List F32) (encoder : CommandEncoder) (device : Device)
  | draw (rpass : RenderPass) (bind_group : BindGroup)

/-- Applies one operation to the renderer state; `render` takes `&self` and
leaves the state untouched. -/
def applyOp (m : ModelGpu) : RendererOp → ModelGpu
  | .upd ps enc dev => (m.update_instance ps enc dev).1
  | .draw _ _ => m

/-- Applies a whole call sequence to the renderer state. -/
def applyOps (m : ModelGpu) (ops : List RendererOp) : ModelGpu :=
  ops.foldl applyOp m

/-- The indexed, instanced draw calls recorded on a render pass, as
(index range, base vertex, instance range) triples. -/
def drawCallsOf (rp : RenderPass) : List ((Nat × Nat) × Int × (Nat × Nat)) :=
  rp.filterMap (fun c =>
    match c with
    | .draw_indexed idx base inst => some (idx, base, inst)
    | _ => none)


/-- C1 (amended): `render` records, in order, exactly: bind the pipeline,
bind the bind group at slot 0, bind the index buffer, bind the vertex buffer
at slot 0 and the instance buffer at slot 1 (one `set_vertex_buffers` call
starting at slot 0 with that two-element list), and one indexed, instanced
draw over indices `0..(index_count mod 2 ^ 32)` and instances
`0..instance_count`; and for every instance list of length `3 * n` with
`3 * n < 2 ^ 32`, `update_instance` followed by `render` issues exactly one
draw of `index_count` (the cube's 36) indices across exactly `n` instances.
The bound is forced by the source's `positions.len() as u32` cast. -/
theorem c1_render_binds_and_draws :
    (∀ (m : ModelGpu) (rp : RenderPass) (bg : BindGroup),
        m.render rp bg = rp ++
          [RenderCommand.set_pipeline m.pipeline,
           RenderCommand.set_bind_group 0 bg [],
           RenderCommand.set_index_buffer m.index_buf 0,
           RenderCommand.set_vertex_buffers 0
             [(m.vertex_buf, 0), (m.instance_buf, 0)],
           RenderCommand.draw_indexed (0, u32Cast m.index_count) 0
             (0, m.instance_count)]) ∧
    (∀ (tl : model.TriangleList) (dev : Device) (enc : CommandEncoder)
        (fmt : TextureFormat) (bgl : BindGroupLayout) (ps : List F32)
        (enc2 : CommandEncoder) (dev2 : Device) (n : Nat) (rp : RenderPass)
        (bg : BindGroup),
        ps.length = 3 * n → 3 * n < 2 ^ 32 →
        drawCallsOf
            ((((ModelGpu.new tl dev enc fmt bgl).1.update_instance ps enc2
                dev2).1.render rp bg).drop rp.length)
          = [((0, model.create_cube.index_data.length), 0, (0, n))]) := by
  constructor
  · intro m rp bg
    simp [ModelGpu.render, RenderPass.set_pipeline, RenderPass.set_bind_group,
      RenderPass.set_index_buffer, RenderPass.set_vertex_buffers,
      RenderPass.draw_indexed]
  · intro tl dev enc fmt bgl ps enc2 dev2 n rp bg h1 h2
    have hcount : u32Cast ps.length / 3 = n := by
      simp only [u32Cast]
      omega
    have hidx : u32Cast model.create_cube.index_data.length
        = model.create_cube.index_data.length := by decide
    simp [ModelGpu.render, RenderPass.set_pipeline, RenderPass.set_bind_group,
      RenderPass.set_index_buffer, RenderPass.set_vertex_buffers,
      RenderPass.draw_indexed, ModelGpu.update_instance, ModelGpu.new,
      drawCallsOf, List.drop_left, hcount, hidx]

/-- C1 witness: after updating with the six floats of two instances, `render`
on a fresh pass records exactly one draw of the cube's 36 indices across
2 instances. -/
theorem c1_render_binds_and_draws_witness :
    ([10, 20, 30, 11, 21, 31] : List F32).length = 3 * 2 ∧ 3 * 2 < 2 ^ 32 ∧
    drawCallsOf
        ((((ModelGpu.new ⟨[], []⟩ 0 [] .Bgra8UnormSrgb 0).1.update_instance
            [10, 20, 30, 11, 21, 31] [] 0).1.render [] 0).drop
          (List.length ([] : RenderPass)))
      = [((0, model.create_cube.index_data.length), 0, (0, 2))] :=
  ⟨by simp, by simp,
   c1_render_binds_and_draws.2 ⟨[], []⟩ 0 [] .Bgra8UnormSrgb 0
     [10, 20, 30, 11, 21, 31] [] 0 2 [] 0 (by simp) (by simp)⟩

/-- Helper for the C1 counterexample: on any payload of length `3 * 2 ^ 32`
the recorded draw covers `0` instances, not `length / 3 = 2 ^ 32`, because
the length is truncated to `u32` before the division by 3. -/
theorem render_draw_truncates_at_pow32 (l : List F32)
    (h : l.length = 3 * 2 ^ 32) :
    drawCallsOf
        ((((ModelGpu.new ⟨[], []⟩ 0 [] .Bgra8UnormSrgb 0).1.update_instance
            l [] 0).1.render [] 0))
      ≠ [((0, model.create_cube.index_data.length), 0, (0, l.length / 3))] := by
  have hcount : u32Cast l.length / 3 = 0 := by
    simp only [u32Cast, h]
    omega
  have hdiv : l.length / 3 = 2 ^ 32 := by
    simp only [h]
    omega
  have hidx : u32Cast model.create_cube.index_data.length
      = model.create_cube.index_data.length := by decide
  simp [ModelGpu.render, RenderPass.set_pipeline, RenderPass.set_bind_group,
    RenderPass.set_index_buffer, RenderPass.set_vertex_buffers,
    RenderPass.draw_indexed, ModelGpu.update_instance, ModelGpu.new,
    drawCallsOf, hcount, hdiv, hidx]
  decide

/-- C1 counterexample: for the instance list of length `3 * n` with
`n = 2 ^ 32` (all-zero floats), `update_instance` followed by `render` does
not issue a draw across `n = length / 3` instances — it draws 0 instances. -/
theorem c1_render_binds_and_draws_counterexample :
    drawCallsOf
        ((((ModelGpu.new ⟨[], []⟩ 0 [] .Bgra8UnormSrgb 0).1.update_instance
            (List.replicate (3 * 2 ^ 32) 0) [] 0).1.render [] 0))
      ≠ [((0, model.create_cube.index_data.length), 0,
          (0, (List.replicate (3 * 2 ^ 32) (0 : F32)).length / 3))] :=
  render_draw_truncates_at_pow32 (List.replicate (3 * 2 ^ 32) 0)
    (List.length_replicate _ _)

/-- C2 (amended): `update_instance` sets the tracked instance count to
`(positions.length mod 2 ^ 32) / 3` — the source casts the length to `u32`
before dividing — which equals `positions.length / 3` (integer division; any
trailing partial instance is silently discarded rather than rejected)
whenever the length is below `2 ^ 32`. -/
theorem c2_update_truncated_instance_count (m : ModelGpu) (ps : List F32)
    (enc : CommandEncoder) (dev : Device) :
    (m.update_instance ps enc dev).1.instance_count = ps.length % 2 ^ 32 / 3 ∧
    (ps.length < 2 ^ 32 →
      (m.update_instance ps enc dev).1.instance_count = ps.length / 3) := by
  refine ⟨rfl, fun h => ?_⟩
  simp only [ModelGpu.update_instance, u32Cast]
  omega

/-- C2 witness: a length-4 input (not a multiple of 3) yields instance count
`4 / 3 = 1`; the trailing partial instance is silently dropped. -/
theorem c2_update_truncated_instance_count_witness :
    ([5, 6, 7, 8] : List F32).length < 2 ^ 32 ∧
    (((ModelGpu.new ⟨[], []⟩ 0 [] .Bgra8UnormSrgb 0).1.update_instance
        [5, 6, 7, 8] [] 0).1.instance_count
      = ([5, 6, 7, 8] : List F32).length / 3) :=
  ⟨by simp,
   (c2_update_truncated_instance_count
      (ModelGpu.new ⟨[], []⟩ 0 [] .Bgra8UnormSrgb 0).1
      [5, 6, 7, 8] [] 0).2 (by simp)⟩

/-- Helper for the C2 counterexample: on any payload of length exactly
`2 ^ 32` the tracked count is `0`, not `length / 3`, because of the `u32`
truncation of the length. -/
theorem instance_count_truncates_at_pow32 (m : ModelGpu) (l : List F32)
    (h : l.length = 2 ^ 32) :
    (m.update_instance l [] 0).1.instance_count ≠ l.length / 3 := by
  simp only [ModelGpu.update_instance, u32Cast, h]
  omega

/-- C2 counterexample: on the float sequence of length `2 ^ 32` (all zeros)
the tracked instance count is `0`, not `2 ^ 32 / 3`, so the claim's
"length divided by 3" fails for lengths at or above `2 ^ 32`. -/
theorem c2_update_truncated_instance_count_counterexample :
    (((ModelGpu.new ⟨[], []⟩ 0 [] .Bgra8UnormSrgb 0).1.update_instance
        (List.replicate (2 ^ 32) 0) [] 0).1.instance_count
      ≠ (List.replicate (2 ^ 32) (0 : F32)).length / 3) :=
  instance_count_truncates_at_pow32
    (ModelGpu.new ⟨[], []⟩ 0 [] .Bgra8UnormSrgb 0).1
    (List.replicate (2 ^ 32) 0) (List.length_replicate _ _)

/-- C3: two sequential `update_instance` calls leave the instance buffer and
instance count exactly as a single update with the second payload would; the
buffer holds exactly the second payload, and `render` records identical
commands in both states, so nothing from the first call is observable. -/
theorem c3_second_update_overrides_first (m : ModelGpu) (p1 p2 : List F32)
    (e1 e2 e3 : CommandEncoder) (d1 d2 d3 : Device) :
    (((m.update_instance p1 e1 d1).1.update_instance p2 e2 d2).1.instance_buf
        = (m.update_instance p2 e3 d3).1.instance_buf) ∧
    (((m.update_instance p1 e1 d1).1.update_instance p2 e2 d2).1.instance_count
        = (m.update_instance p2 e3 d3).1.instance_count) ∧
    (((m.update_instance p1 e1 d1).1.update_instance p2 e2
        d2).1.instance_buf.data = BufferData.floats p2) ∧
    (∀ (rp : RenderPass) (bg : BindGroup),
      ((m.update_instance p1 e1 d1).1.update_instance p2 e2 d2).1.render rp bg
        = (m.update_instance p2 e3 d3).1.render rp bg) :=
  ⟨rfl, rfl, rfl, fun _ _ => rfl⟩

/-- Any sequence of renderer operations leaves `index_count` unchanged
(`update_instance` keeps it; `render` takes the state immutably). -/
theorem applyOps_index_count (m : ModelGpu) (ops : List RendererOp) :
    (applyOps m ops).index_count = m.index_count := by
  induction ops generalizing m with
  | nil => rfl
  | cons op rest ih =>
    cases op with
    | upd ps enc dev =>
      simpa [applyOps, applyOp, ModelGpu.update_instance] using
        ih (m.update_instance ps enc dev).1
    | draw rp bg => simpa [applyOps, applyOp] using ih m

/-- C4: `update_instance` modifies only the instance buffer and instance
count — vertex buffer, index buffer, `index_count` and pipeline are
untouched — and across every sequence of `update_instance` and `render`
calls after construction, `index_count` keeps the Mesh Provider's index-list
length fixed at construction. -/
theorem c4_update_frame_and_index_count_lifetime :
    (∀ (m : ModelGpu) (ps : List F32) (enc : CommandEncoder) (dev : Device),
        (m.update_instance ps enc dev).1.vertex_buf = m.vertex_buf ∧
        (m.update_instance ps enc dev).1.index_buf = m.index_buf ∧
        (m.update_instance ps enc dev).1.index_count = m.index_count ∧
        (m.update_instance ps enc dev).1.pipeline = m.pipeline) ∧
    (∀ (tl : model.TriangleList) (dev : Device) (enc : CommandEncoder)
        (fmt : TextureFormat) (bgl : BindGroupLayout) (ops : List RendererOp),
        (applyOps (ModelGpu.new tl dev enc fmt bgl).1 ops).index_count
          = model.create_cube.index_data.length) := by
  refine ⟨fun m ps enc dev => ⟨rfl, rfl, rfl, rfl⟩,
    fun tl dev enc fmt bgl ops => ?_⟩
  rw [applyOps_index_count]
  rfl

/-- C5: for every construction the pipeline's fixed-function state is the
constant bundle: CCW front face, back-face culling, zero depth bias,
triangle-list topology, Uint32 indices, one color attachment in the given
format with replace blending on color and alpha and all channels written,
Depth32Float depth with compare Less and depth writes on, ignored stencil
faces with zero masks, one sample, and no alpha-to-coverage. -/
theorem c5_pipeline_fixed_function_state (tl : model.TriangleList)
    (dev : Device) (enc : CommandEncoder) (fmt : TextureFormat)
    (bgl : BindGroupLayout) :
    ((ModelGpu.new tl dev enc fmt bgl).1.pipeline.rasterization_state = some
      { front_face := .Ccw, cull_mode := .Back, depth_bias := 0,
        depth_bias_slope_scale := 0, depth_bias_clamp := 0 }) ∧
    ((ModelGpu.new tl dev enc fmt bgl).1.pipeline.primitive_topology
      = .TriangleList) ∧
    ((ModelGpu.new tl dev enc fmt bgl).1.pipeline.index_format = .Uint32) ∧
    ((ModelGpu.new tl dev enc fmt bgl).1.pipeline.color_states =
      [{ format := fmt, color_blend := BlendDescriptor.REPLACE,
         alpha_blend := BlendDescriptor.REPLACE,
         write_mask := ColorWrite.ALL }]) ∧
    ((ModelGpu.new tl dev enc fmt bgl).1.pipeline.depth_stencil_state = some
      { format := .Depth32Float, depth_write_enabled := true,
        depth_compare := .Less,
        stencil_front := StencilStateFaceDescriptor.IGNORE,
        stencil_back := StencilStateFaceDescriptor.IGNORE,
        stencil_read_mask := 0, stencil_write_mask := 0 }) ∧
    ((ModelGpu.new tl dev enc fmt bgl).1.pipeline.sample_count = 1) ∧
    ((ModelGpu.new tl dev enc fmt bgl).1.pipeline.alpha_to_coverage_enabled
      = false) :=
  ⟨rfl, rfl, rfl, rfl, rfl, rfl, rfl⟩

/-- C6: the pipeline declares exactly two vertex-buffer bindings — binding 0
per vertex with stride the Vertex size and attributes Float4 position at
offset 0 → location 0 and Float2 texcoord at offset 16 → location 1, and
binding 1 per instance with stride 12 and one Float3 attribute at offset 0 →
location 2. -/
theorem c6_vertex_buffer_bindings (tl : model.TriangleList) (dev : Device)
    (enc : CommandEncoder) (fmt : TextureFormat) (bgl : BindGroupLayout) :
    (ModelGpu.new tl dev enc fmt bgl).1.pipeline.vertex_buffers =
      [{ stride := model.Vertex.size, step_mode := .Vertex,
         attributes :=
           [{ format := .Float4, offset := 0, shader_location := 0 },
            { format := .Float2, offset := 16, shader_location := 1 }] },
       { stride := 12, step_mode := .Instance,
         attributes :=
           [{ format := .Float3, offset := 0, shader_location := 2 }] }] :=
  rfl

/-- C7: immediately after construction, and after an `update_instance` with
an empty payload, the instance count is zero, so `render` still records the
pipeline, bind-group, index-buffer and vertex-buffer bindings but its draw
covers the empty instance range `0..0`; the vertex buffer, index buffer and
pipeline are the same (still valid) objects afterwards. -/
theorem c7_empty_instance_list_draws_zero :
    (∀ (tl : model.TriangleList) (dev : Device) (enc : CommandEncoder)
        (fmt : TextureFormat) (bgl : BindGroupLayout),
        ((ModelGpu.new tl dev enc fmt bgl).1.instance_count = 0) ∧
        (∀ (rp : RenderPass) (bg : BindGroup),
          (ModelGpu.new tl dev enc fmt bgl).1.render rp bg = rp ++
            [RenderCommand.set_pipeline
               (ModelGpu.new tl dev enc fmt bgl).1.pipeline,
             RenderCommand.set_bind_group 0 bg [],
             RenderCommand.set_index_buffer
               (ModelGpu.new tl dev enc fmt bgl).1.index_buf 0,
             RenderCommand.set_vertex_buffers 0
               [((ModelGpu.new tl dev enc fmt bgl).1.vertex_buf, 0),
                ((ModelGpu.new tl dev enc fmt bgl).1.instance_buf, 0)],
             RenderCommand.draw_indexed
               (0, u32Cast (ModelGpu.new tl dev enc fmt bgl).1.index_count) 0
               (0, 0)])) ∧
    (∀ (m : ModelGpu) (enc : CommandEncoder) (dev : Device),
        ((m.update_instance [] enc dev).1.instance_count = 0) ∧
        ((m.update_instance [] enc dev).1.vertex_buf = m.vertex_buf) ∧
        ((m.update_instance [] enc dev).1.index_buf = m.index_buf) ∧
        ((m.update_instance [] enc dev).1.pipeline = m.pipeline) ∧
        (∀ (rp : RenderPass) (bg : BindGroup),
          (m.update_instance [] enc dev).1.render rp bg = rp ++
            [RenderCommand.set_pipeline m.pipeline,
             RenderCommand.set_bind_group 0 bg [],
             RenderCommand.set_index_buffer m.index_buf 0,
             RenderCommand.set_vertex_buffers 0
               [(m.vertex_buf, 0),
                ((m.update_instance [] enc dev).1.instance_buf, 0)],
             RenderCommand.draw_indexed (0, u32Cast m.index_count) 0
               (0, 0)])) := by
  constructor
  · intro tl dev enc fmt bgl
    refine ⟨rfl, fun rp bg => ?_⟩
    simp [ModelGpu.render, RenderPass.set_pipeline, RenderPass.set_bind_group,
      RenderPass.set_index_buffer, RenderPass.set_vertex_buffers,
      RenderPass.draw_indexed]
    rfl
  · intro m enc dev
    refine ⟨rfl, rfl, rfl, rfl, fun rp bg => ?_⟩
    simp [ModelGpu.render, RenderPass.set_pipeline, RenderPass.set_bind_group,
      RenderPass.set_index_buffer, RenderPass.set_vertex_buffers,
      RenderPass.draw_indexed, ModelGpu.update_instance]
    rfl

/-- C8: construction ignores its `triangle_list` argument entirely — two
constructions differing only in that argument produce identical results —
and the vertex data, index data and `index_count` always come from the
internally invoked cube Mesh Provider. -/
theorem c8_construction_ignores_triangle_list (tl1 tl2 : model.TriangleList)
    (dev : Device) (enc : CommandEncoder) (fmt : TextureFormat)
    (bgl : BindGroupLayout) :
    (ModelGpu.new tl1 dev enc fmt bgl = ModelGpu.new tl2 dev enc fmt bgl) ∧
    ((ModelGpu.new tl1 dev enc fmt bgl).1.vertex_buf.data
      = BufferData.vertices model.create_cube.vertex_data) ∧
    ((ModelGpu.new tl1 dev enc fmt bgl).1.index_buf.data
      = BufferData.indices model.create_cube.index_data) ∧
    ((ModelGpu.new tl1 dev enc fmt bgl).1.index_count
      = model.create_cube.index_data.length) :=
  ⟨rfl, rfl, rfl, rfl⟩

/-- C9: neither construction nor `update_instance` records any command on the
command encoder it receives — both return it unchanged — and the instance
data reaches the device only as the mapped fill of a freshly created
buffer. -/
theorem c9_encoder_left_unchanged :
    (∀ (tl : model.TriangleList) (dev : Device) (enc : CommandEncoder)
        (fmt : TextureFormat) (bgl : BindGroupLayout),
        (ModelGpu.new tl dev enc fmt bgl).2 = enc) ∧
    (∀ (m : ModelGpu) (ps : List F32) (enc : CommandEncoder) (dev : Device),
        ((m.update_instance ps enc dev).2 = enc) ∧
        ((m.update_instance ps enc dev).1.instance_buf =
          (dev.create_buffer_mapped ps.length
              BufferUsage.VERTEX).fill_from_slice (BufferData.floats ps))) :=
  ⟨fun _ _ _ _ _ => rfl, fun _ _ _ _ => ⟨rfl, rfl⟩⟩

/-- C10: the instance buffer created at construction has usage
VERTEX ∪ COPY_DST, while every replacement buffer created by
`update_instance` has usage VERTEX only, so after the first update the
renderer's instance buffer is no longer a valid copy destination. -/
theorem c10_instance_buffer_usage_flags :
    (∀ (tl : model.TriangleList) (dev : Device) (enc : CommandEncoder)
        (fmt : TextureFormat) (bgl : BindGroupLayout),
        ((ModelGpu.new tl dev enc fmt bgl).1.instance_buf.usage
          = BufferUsage.VERTEX.union BufferUsage.COPY_DST) ∧
        ((ModelGpu.new tl dev enc fmt bgl).1.instance_buf.usage.copy_dst
          = true)) ∧
    (∀ (m : ModelGpu) (ps : List F32) (enc : CommandEncoder) (dev : Device),
        ((m.update_instance ps enc dev).1.instance_buf.usage
          = BufferUsage.VERTEX) ∧
        ((m.update_instance ps enc dev).1.instance_buf.usage.copy_dst
          = false)) :=
  ⟨fun _ _ _ _ _ => ⟨rfl, rfl⟩, fun _ _ _ _ => ⟨rfl, rfl⟩⟩
